import Mathlib

/-!
Shallow embedding of the Pixel Clock 2025 web client (the full revision of
the dashboard script): the status-polling refresh `def_fetch`, the
unsaved-edit window (`markDirty`, `UNSAVED_TIMEOUT`), settings saving
(`saveSettings`), animation requests (`playAnim`) and the alarm editor
(`saveAlarm`, `saveAlarmRequest`, the `info` line of `renderAlarms`).
Times are modelled as integers (milliseconds, as produced by a JS clock);
numeric input values as integers or rationals; JSON fields that the script
guards for presence as `Option`s (a key dropped by `JSON.stringify` of an
`undefined` value is `none`).
-/

namespace PixelClock

/-- Milliseconds after a local edit during which `def_fetch` must not
overwrite the settings inputs (source: `const UNSAVED_TIMEOUT = 30000`). -/
def UNSAVED_TIMEOUT : ℤ := 30000

/-- The `date` object of the `/api/status` response. -/
structure DateInfo where
  year : ℤ
  month : ℤ
  day : ℤ
  wday : ℤ
  deriving DecidableEq

/-- The `/api/status` response body as read by `def_fetch`.  Fields that the
script tests for presence (`data.seconds_color`, `data.timezone_offset !==
undefined`, `data.blink_mode !== undefined`, `data.rotation !== undefined`,
`data.logs`) are `Option`s. -/
structure StatusData where
  time : ℤ × ℤ × ℤ
  date : Option DateInfo
  brightness : ℚ
  color : String
  colon_color : String
  seconds_color : Option String
  mode : ℤ
  twelve_hour : Bool
  timezone_offset : Option ℤ
  blink_mode : Option ℤ
  rotation : Option Bool
  logs : Option (List String)
  deriving DecidableEq

/-- The values of the settings input elements on the page: the brightness
slider (an integer 0..100), the three colour pickers, the mode and
twelve-hour selects, the timezone number input and the two checkboxes,
plus the `bri-val` percentage label. -/
structure Fields where
  bri_val : String
  brightness : ℤ
  color_digits : String
  color_colon : String
  color_seconds : String
  format_mode : ℤ
  twelve_hour : String
  timezone_offset : ℤ
  blink_colon : Bool
  rotation : Bool
  deriving DecidableEq

/-- The page state touched by the embedded functions: the clock and date
preview lines, the settings inputs, the unsaved icon, the persistent log
panel and the global `lastEditTime`. -/
structure Page where
  clock_preview : String
  date_preview : String
  fields : Fields
  unsaved_icon_visible : Bool
  status_log : String
  lastEditTime : ℤ
  deriving DecidableEq

/-- JS `Math.round` on a rational: round half toward positive infinity,
i.e. the floor of `q + 1/2`. -/
def jsRound (q : ℚ) : ℤ := (q + 1 / 2).floor

/-- JS array indexing with an integer index: out-of-range yields
`undefined`, modelled as `none`. -/
def listAt (l : List String) (i : ℤ) : Option String :=
  if h : 0 ≤ i ∧ i.toNat < l.length then some (l.get ⟨i.toNat, h.2⟩) else none

/-- JS `x || "???"` where `x` is a possibly-`undefined` string: the empty
string and `undefined` are falsy. -/
def orQQQ : Option String → String
  | some s => if s = "" then "???" else s
  | none => "???"

/-- JS `String(n).padStart(2, "0")` for an integer rendered in decimal. -/
def padStart2 (s : String) : String :=
  if s.length = 0 then "00" else if s.length = 1 then "0" ++ s else s

/-- The clock-preview text built by `def_fetch` from `data.time`. -/
def clockText (t : ℤ × ℤ × ℤ) : String :=
  padStart2 (toString t.1) ++ ":" ++ padStart2 (toString t.2.1) ++ ":" ++
    padStart2 (toString t.2.2)

/-- Weekday abbreviations used for the date line (`days` in `def_fetch`). -/
def dayNamesShort : List String :=
  ["Mon", "Tue", "Wed", "Thu", "Fri", "Sat", "Sun"]

/-- Month abbreviations used for the date line (`months` in `def_fetch`). -/
def monthNamesShort : List String :=
  ["Jan", "Feb", "Mar", "Apr", "May", "Jun", "Jul", "Aug", "Sep", "Oct",
   "Nov", "Dec"]

/-- The date-preview text built by `def_fetch`: the weekday and month
abbreviations (falling back to `"???"`) with day and year, or the empty
string when the status carries no `date`. -/
def dateText : Option DateInfo → String
  | none => ""
  | some d =>
      orQQQ (listAt dayNamesShort d.wday) ++ ", " ++
        orQQQ (listAt monthNamesShort (d.month - 1)) ++ " " ++
        toString d.day ++ ", " ++ toString d.year

/-- The persistent-log panel text built by `def_fetch` from `data.logs`. -/
def logsText (logs : List String) : String :=
  if 0 < logs.length then String.intercalate "<br>" logs
  else "[System] No persistent logs found."

/-- The overwrite of every settings input performed inside `def_fetch` once
both guards pass.  Inputs whose status field is absent (or, for the seconds
colour, empty, hence falsy) keep their previous value, exactly as the
script's per-field `if` guards do. -/
def updateFields (data : StatusData) (f : Fields) : Fields :=
  { bri_val := toString (jsRound (data.brightness * 100)) ++ "%"
    brightness := jsRound (data.brightness * 100)
    color_digits := data.color
    color_colon := data.colon_color
    color_seconds :=
      match data.seconds_color with
      | some c => if c = "" then f.color_seconds else c
      | none => f.color_seconds
    format_mode := data.mode
    twelve_hour := if data.twelve_hour then "true" else "false"
    timezone_offset := data.timezone_offset.getD f.timezone_offset
    blink_colon :=
      match data.blink_mode with
      | some b => 0 < b
      | none => f.blink_colon
    rotation := data.rotation.getD f.rotation }

/-- The guarded middle part of `def_fetch`: only when
`Date.now() - lastEditTime > UNSAVED_TIMEOUT` is the unsaved icon cleared,
and only when additionally no INPUT or SELECT element has focus
(`activeInputOrSelect = false`) are the settings inputs overwritten. -/
def applyStatusToFields (now : ℤ) (activeInputOrSelect : Bool)
    (data : StatusData) (p : Page) : Page :=
  if UNSAVED_TIMEOUT < now - p.lastEditTime then
    if activeInputOrSelect then { p with unsaved_icon_visible := false }
    else { p with unsaved_icon_visible := false
                  fields := updateFields data p.fields }
  else p

/-- The periodic status refresh `def_fetch` (success path): update the clock
preview and the date line unconditionally, the settings inputs only behind
the edit-window and focus guards, and the persistent-log panel whenever the
status carries a `logs` field. -/
def def_fetch (now : ℤ) (activeInputOrSelect : Bool) (data : StatusData)
    (p : Page) : Page :=
  let pClock : Page :=
    { p with clock_preview := clockText data.time
             date_preview := dateText data.date }
  let pFields : Page := applyStatusToFields now activeInputOrSelect data pClock
  match data.logs with
  | some ls => { pFields with status_log := logsText ls }
  | none => pFields

/-- `markDirty`: stamp `lastEditTime` with the current time and show the
unsaved icon. -/
def markDirty (now : ℤ) (p : Page) : Page :=
  { p with lastEditTime := now, unsaved_icon_visible := true }

/-- Element tags relevant to the `DOMContentLoaded` listener registration. -/
inductive ElemTag
  | INPUT
  | SELECT
  | TEXTAREA
  | BUTTON
  | OTHER
  deriving DecidableEq

/-- Which elements get `markDirty` listeners: exactly those matched by
`document.querySelectorAll("input, select")`. -/
def registersMarkDirty : ElemTag → Bool
  | ElemTag.INPUT => true
  | ElemTag.SELECT => true
  | _ => false

/-- The DOM event kinds of interest. -/
inductive UiEvent
  | eInput
  | eChange
  | eClick
  deriving DecidableEq

/-- Dispatch of a DOM event against the listeners installed on
`DOMContentLoaded`: `input` and `change` events on any INPUT or SELECT
element run `markDirty`; everything else leaves the page alone. -/
def dispatchUiEvent (tag : ElemTag) (ev : UiEvent) (now : ℤ) (p : Page) :
    Page :=
  if registersMarkDirty tag ∧ (ev = UiEvent.eInput ∨ ev = UiEvent.eChange)
  then markDirty now p
  else p

/-- The body of the `POST /api/settings` request built by `saveSettings`. -/
structure SettingsWire where
  brightness : ℚ
  color : String
  colon_color : String
  seconds_color : String
  mode : ℤ
  twelve_hour : Bool
  colon_blink_mode : ℤ
  rotation : Bool
  timezone_offset : ℤ
  deriving DecidableEq

/-- The `settings` object assembled by `saveSettings` from the input
elements; note the brightness slider value is divided by 100 before being
placed on the wire (`document.getElementById("brightness").value / 100`). -/
def settingsPayload (f : Fields) : SettingsWire :=
  { brightness := (f.brightness : ℚ) / 100
    color := f.color_digits
    colon_color := f.color_colon
    seconds_color := f.color_seconds
    mode := f.format_mode
    twelve_hour := f.twelve_hour = "true"
    colon_blink_mode := if f.blink_colon then 1 else 0
    rotation := f.rotation
    timezone_offset := f.timezone_offset }

/-- `saveSettings` (success path): post the assembled settings, then clear
the dirty flag (`lastEditTime = 0`), hide the unsaved icon and run
`def_fetch` immediately.  Returns the wire payload together with the page
state after the immediate refresh, which fetches `data` at time `now` with
focus state `activeInputOrSelect`. -/
def saveSettings (now : ℤ) (activeInputOrSelect : Bool) (data : StatusData)
    (p : Page) : SettingsWire × Page :=
  (settingsPayload p.fields,
   def_fetch now activeInputOrSelect data
     { p with lastEditTime := 0, unsaved_icon_visible := false })

/-- The body of the `POST /api/animation` request built by `playAnim`. -/
structure AnimPayload where
  name : String
  text : Option String
  deriving DecidableEq

/-- `playAnim`: the payload carries the animation name, plus a `text` field
only for `scroll_custom`, where an empty scroll-text input (falsy) is
replaced by `"Hello World"`. -/
def playAnim (name : String) (scrollTextValue : String) : AnimPayload :=
  { name := name
    text :=
      if name = "scroll_custom" then
        some (if scrollTextValue = "" then "Hello World" else scrollTextValue)
      else none }

/-- The `payload` object of an alarm action (`text`, `color`,
`brightness`). -/
structure ActionPayload where
  text : String
  color : String
  brightness : ℚ
  deriving DecidableEq

/-- An alarm action as assembled by `saveAlarm`. -/
structure AlarmAction where
  type : String
  duration_type : String
  duration_sec : ℤ
  payload : ActionPayload
  deriving DecidableEq

/-- An alarm schedule; `frequency`, `days` and `date` are set to
`undefined` (here `none`) for the kinds that do not use them, so
`JSON.stringify` drops them from the wire object. -/
structure AlarmSchedule where
  time : String
  frequency : Option String
  days : Option (List ℕ)
  date : Option String
  deriving DecidableEq

/-- An alarm record as built by `saveAlarm` (and as listed by
`GET /api/alarms`); `id` is attached only when updating. -/
structure Alarm where
  id : Option String
  enabled : Bool
  name : String
  type : String
  schedule : AlarmSchedule
  action : AlarmAction
  deriving DecidableEq

/-- The state of the alarm-editor modal read by `saveAlarm`: the input
values and the module-level `selectedDays` and `currentAlarmId`. -/
structure AlarmForm where
  name : String
  time : String
  freq : String
  date : String
  actionType : String
  actionText : String
  actionColor : String
  actionBrightness : ℚ
  durType : String
  duration : ℤ
  selectedDays : List ℕ
  currentAlarmId : Option String
  deriving DecidableEq

/-- The alarm object assembled by `saveAlarm` after validation: `name`
falls back to `"Alarm"` when empty (falsy), the `type` tag and the three
optional schedule fields are driven by the frequency select, and the
action always embeds the text, colour and brightness inputs. -/
def buildAlarm (form : AlarmForm) : Alarm :=
  { id := none
    enabled := true
    name := if form.name = "" then "Alarm" else form.name
    type := if form.freq = "oneshot" then "oneshot" else "repetitive"
    schedule :=
      { time := form.time
        frequency := if form.freq = "oneshot" then none else some form.freq
        days := if form.freq = "daily" then some form.selectedDays else none
        date := if form.freq = "oneshot" then some form.date else none }
    action :=
      { type := form.actionType
        duration_type := form.durType
        duration_sec := form.duration
        payload :=
          { text := form.actionText
            color := form.actionColor
            brightness := form.actionBrightness } } }

/-- The alarm-management commands the client issues. -/
inductive Cmd
  | add
  | update
  | delete
  deriving DecidableEq

/-- `saveAlarm`: reject with an alert and no request when the action-text
input holds more than 250 characters; otherwise hand the built alarm to
`saveAlarmRequest`, as an `update` carrying `currentAlarmId` when editing
an existing alarm and as an `add` otherwise. -/
def saveAlarm (form : AlarmForm) : Option (Cmd × Alarm) :=
  if 250 < form.actionText.length then none
  else
    some (match form.currentAlarmId with
      | some i => (Cmd.update, { buildAlarm form with id := some i })
      | none => (Cmd.add, buildAlarm form))

/-- The stored alarm list after a `saveAlarm` call, for an arbitrary server
behaviour `applyReq`: when `saveAlarm` rejects, no request reaches the
server and the store is untouched. -/
def storeAfterSaveAlarm (form : AlarmForm)
    (applyReq : Cmd × Alarm → List Alarm → List Alarm)
    (store : List Alarm) : List Alarm :=
  match saveAlarm form with
  | none => store
  | some req => applyReq req store

/-- The body of a `POST /api/alarms` request built by `saveAlarmRequest`. -/
structure AlarmsPayload where
  cmd : Cmd
  alarm : Option Alarm
  id : Option String
  deriving DecidableEq

/-- The payload assembly in `saveAlarmRequest`: a `delete` carries only the
id, an `add` only the alarm, an `update` both. -/
def saveAlarmRequest (cmd : Cmd) (alarmData : Alarm) : AlarmsPayload :=
  match cmd with
  | Cmd.delete => { cmd := Cmd.delete, alarm := none, id := alarmData.id }
  | Cmd.update =>
      { cmd := Cmd.update, alarm := some alarmData, id := alarmData.id }
  | Cmd.add => { cmd := Cmd.add, alarm := some alarmData, id := none }

/-- An `/api/alarms` response as seen by `saveAlarmRequest`: the HTTP-level
`res.ok` flag and the decoded `status` and optional `message` fields. -/
structure ApiResponse where
  ok : Bool
  status : String
  message : Option String
  deriving DecidableEq

/-- The response handling of `saveAlarmRequest`: on `!res.ok` or
`status = "error"` it alerts `"Error: " + (message || "Operation failed")`
and throws `Error(message)`; the catch block adds a second alert
`"Network/Server Error"` exactly when the thrown message is empty, and
rethrows.  The result pairs the alerts shown with the outcome delivered to
the caller (`Except.error` is the rethrown exception). -/
def saveAlarmRequestOutcome (r : ApiResponse) :
    List String × Except String Unit :=
  if r.ok = false ∨ r.status = "error" then
    let m : String := r.message.getD ""
    let firstAlert : String :=
      "Error: " ++ (if m = "" then "Operation failed" else m)
    if m = "" then ([firstAlert, "Network/Server Error"], Except.error m)
    else ([firstAlert], Except.error m)
  else ([], Except.ok ())

/-- The single-letter weekday labels used by `renderAlarms`
(`["M","T","W","T","F","S","S"]`, indexed by day number). -/
def dayLetters : List String := ["M", "T", "W", "T", "F", "S", "S"]

/-- Full weekday names in the spec's encoding, 0 = Monday .. 6 = Sunday.
Used only to state that the rendered letters follow that encoding. -/
def weekdayNames : List String :=
  ["Monday", "Tuesday", "Wednesday", "Thursday", "Friday", "Saturday",
   "Sunday"]

/-- JS template interpolation of a possibly-`undefined` string. -/
def jsInterp : Option String → String
  | some s => s
  | none => "undefined"

/-- The `info` line that `renderAlarms` builds for one alarm: the time in
bold, then for a repetitive daily alarm either `" (Every day)"` (when
`days` is absent, empty or of length 7) or the selected days as
space-separated letters; for other repetitive alarms the frequency, and
for one-shots the date. -/
def alarmInfo (a : Alarm) : String :=
  let base : String := "<strong>" ++ a.schedule.time ++ "</strong>"
  if a.type = "repetitive" then
    if a.schedule.frequency = some "daily" then
      let d : List ℕ := a.schedule.days.getD []
      if d.length = 0 ∨ d.length = 7 then base ++ " (Every day)"
      else
        base ++ " (" ++
          String.intercalate " " (d.map (fun i => dayLetters.getD i "")) ++
          ")"
    else base ++ " (" ++ jsInterp a.schedule.frequency ++ ")"
  else base ++ " (" ++ jsInterp a.schedule.date ++ ")"

/-! Concrete sample data for closed instances. -/

/-- Sample settings-input values. -/
def sampleFields : Fields :=
  { bri_val := "10%", brightness := 10, color_digits := "#000000"
    color_colon := "#111111", color_seconds := "#222222", format_mode := 1
    twelve_hour := "false", timezone_offset := 0, blink_colon := false
    rotation := false }

/-- Sample `/api/status` response with every optional field present. -/
def sampleStatus : StatusData :=
  { time := (1, 2, 3), date := none, brightness := 1 / 2
    color := "#ffffff", colon_color := "#00ff00"
    seconds_color := some "#0000ff", mode := 0, twelve_hour := true
    timezone_offset := some 2, blink_mode := some 1, rotation := some true
    logs := some ["boot"] }

/-- Sample page state with a clean (zero) `lastEditTime`. -/
def samplePage : Page :=
  { clock_preview := "", date_preview := "", fields := sampleFields
    unsaved_icon_visible := true, status_log := "", lastEditTime := 0 }

/-- Sample settings inputs with the brightness slider at 50. -/
def sampleFieldsHalf : Fields := { sampleFields with brightness := 50 }

/-- A 251-character action text. -/
def longText : String := String.mk (List.replicate 251 'A')

/-- A filled-in alarm-editor modal whose action type is `blink`. -/
def blinkForm : AlarmForm :=
  { name := "Blink", time := "07:00", freq := "daily", date := "2025-01-01"
    actionType := "blink", actionText := "HI", actionColor := "#ff0000"
    actionBrightness := 1, durType := "seconds", duration := 60
    selectedDays := [0, 1], currentAlarmId := none }

/-- A sample repetitive daily alarm with days Monday and Wednesday. -/
def sampleDailyAlarm : Alarm :=
  { id := some "a1", enabled := true, name := "Wake", type := "repetitive"
    schedule :=
      { time := "07:00", frequency := some "daily", days := some [0, 2]
        date := none }
    action := (buildAlarm blinkForm).action }

/-! Helper lemmas about the refresh pipeline. -/

theorem applyStatusToFields_lastEditTime (now : ℤ) (act : Bool)
    (data : StatusData) (p : Page) :
    (applyStatusToFields now act data p).lastEditTime = p.lastEditTime := by
  unfold applyStatusToFields
  split
  · split <;> rfl
  · rfl

theorem applyStatusToFields_clock (now : ℤ) (act : Bool) (data : StatusData)
    (p : Page) :
    (applyStatusToFields now act data p).clock_preview = p.clock_preview := by
  unfold applyStatusToFields
  split
  · split <;> rfl
  · rfl

theorem applyStatusToFields_date (now : ℤ) (act : Bool) (data : StatusData)
    (p : Page) :
    (applyStatusToFields now act data p).date_preview = p.date_preview := by
  unfold applyStatusToFields
  split
  · split <;> rfl
  · rfl

theorem applyStatusToFields_icon_false (now : ℤ) (act : Bool)
    (data : StatusData) (p : Page) (h : p.unsaved_icon_visible = false) :
    (applyStatusToFields now act data p).unsaved_icon_visible = false := by
  unfold applyStatusToFields
  split
  · split <;> rfl
  · exact h

theorem applyStatusToFields_fields_of_le (now : ℤ) (act : Bool)
    (data : StatusData) (p : Page)
    (h : now - p.lastEditTime ≤ UNSAVED_TIMEOUT) :
    (applyStatusToFields now act data p).fields = p.fields := by
  unfold applyStatusToFields
  rw [if_neg (by omega)]

theorem applyStatusToFields_fields_of_active (now : ℤ) (data : StatusData)
    (p : Page) :
    (applyStatusToFields now true data p).fields = p.fields := by
  unfold applyStatusToFields
  split
  · rfl
  · rfl

theorem applyStatusToFields_fields_overwrite (now : ℤ) (data : StatusData)
    (p : Page) (h : UNSAVED_TIMEOUT < now - p.lastEditTime) :
    (applyStatusToFields now false data p).fields =
      updateFields data p.fields := by
  unfold applyStatusToFields
  rw [if_pos h]
  rfl

theorem def_fetch_fields_eq (now : ℤ) (act : Bool) (data : StatusData)
    (p : Page) :
    (def_fetch now act data p).fields =
      (applyStatusToFields now act data
        { p with clock_preview := clockText data.time
                 date_preview := dateText data.date }).fields := by
  unfold def_fetch
  cases data.logs <;> rfl

theorem def_fetch_lastEditTime (now : ℤ) (act : Bool) (data : StatusData)
    (p : Page) : (def_fetch now act data p).lastEditTime = p.lastEditTime := by
  unfold def_fetch
  cases data.logs
  · exact applyStatusToFields_lastEditTime now act data _
  · exact applyStatusToFields_lastEditTime now act data _

theorem def_fetch_clock (now : ℤ) (act : Bool) (data : StatusData)
    (p : Page) :
    (def_fetch now act data p).clock_preview = clockText data.time := by
  unfold def_fetch
  cases data.logs
  · exact applyStatusToFields_clock now act data _
  · exact applyStatusToFields_clock now act data _

theorem def_fetch_date (now : ℤ) (act : Bool) (data : StatusData)
    (p : Page) :
    (def_fetch now act data p).date_preview = dateText data.date := by
  unfold def_fetch
  cases data.logs
  · exact applyStatusToFields_date now act data _
  · exact applyStatusToFields_date now act data _

theorem def_fetch_icon_false (now : ℤ) (act : Bool) (data : StatusData)
    (p : Page) (h : p.unsaved_icon_visible = false) :
    (def_fetch now act data p).unsaved_icon_visible = false := by
  unfold def_fetch
  cases data.logs
  · exact applyStatusToFields_icon_false now act data _ h
  · exact applyStatusToFields_icon_false now act data _ h

theorem def_fetch_log (now : ℤ) (act : Bool) (data : StatusData) (p : Page)
    (ls : List String) (h : data.logs = some ls) :
    (def_fetch now act data p).status_log = logsText ls := by
  unfold def_fetch
  rw [h]

theorem def_fetch_fields_of_le (now : ℤ) (act : Bool) (data : StatusData)
    (p : Page) (h : now - p.lastEditTime ≤ UNSAVED_TIMEOUT) :
    (def_fetch now act data p).fields = p.fields := by
  rw [def_fetch_fields_eq]
  exact applyStatusToFields_fields_of_le now act data _ h

theorem def_fetch_fields_of_active (now : ℤ) (data : StatusData) (p : Page) :
    (def_fetch now true data p).fields = p.fields := by
  rw [def_fetch_fields_eq]
  exact applyStatusToFields_fields_of_active now data _

theorem def_fetch_fields_overwrite (now : ℤ) (data : StatusData) (p : Page)
    (h : UNSAVED_TIMEOUT < now - p.lastEditTime) :
    (def_fetch now false data p).fields = updateFields data p.fields := by
  rw [def_fetch_fields_eq]
  exact applyStatusToFields_fields_overwrite now data _ h

theorem updateFields_indep (data : StatusData) (c : String)
    (hc : data.seconds_color = some c) (hc0 : c ≠ "") (z : ℤ)
    (hz : data.timezone_offset = some z) (b : ℤ)
    (hb : data.blink_mode = some b) (r : Bool) (hr : data.rotation = some r)
    (f g : Fields) : updateFields data f = updateFields data g := by
  simp [updateFields, hc, hz, hb, hr, hc0]

/-! Claim theorems. -/

/-- Claim C1: a status refresh (`def_fetch`) that runs while
`now - lastEditTime < UNSAVED_TIMEOUT` (the threshold, fixed at 30000 ms)
leaves every settings input field untouched, whatever the fetched data and
the focus state; once the threshold has elapsed the refresh may resync
the fields (it does so whenever no input or select element has focus). -/
theorem c1_refresh_respects_edit_window :
    UNSAVED_TIMEOUT = 30000 ∧
    (∀ (now : ℤ) (act : Bool) (data : StatusData) (p : Page),
        now - p.lastEditTime < UNSAVED_TIMEOUT →
        (def_fetch now act data p).fields = p.fields) ∧
    (∀ (now : ℤ) (data : StatusData) (p : Page),
        UNSAVED_TIMEOUT < now - p.lastEditTime →
        (def_fetch now false data p).fields = updateFields data p.fields) := by
  refine ⟨rfl, ?_, ?_⟩
  · intro now act data p h
    exact def_fetch_fields_of_le now act data p (le_of_lt h)
  · intro now data p h
    exact def_fetch_fields_overwrite now data p h

/-- Witness for C1 at a concrete refresh 10 seconds after an edit. -/
theorem c1_refresh_respects_edit_window_witness :
    (def_fetch 10000 false sampleStatus samplePage).fields =
      samplePage.fields :=
  c1_refresh_respects_edit_window.2.1 10000 false sampleStatus samplePage
    (by decide)

/-- Claim C2 counterexample: after a completed save, the immediate refresh
issued by `saveSettings` does NOT overwrite the settings fields when an
INPUT or SELECT element has focus, even though the fetched values differ
from the displayed ones; so the next read does not always fully resync. -/
theorem c2_full_resync_counterexample :
    (saveSettings 1000000 true sampleStatus samplePage).2.fields =
      samplePage.fields ∧
    (updateFields sampleStatus samplePage.fields).color_digits ≠
      samplePage.fields.color_digits := by
  constructor
  · exact def_fetch_fields_of_active 1000000 sampleStatus _
  · decide

/-- Claim C2 (amended): when `saveSettings`' POST completes, the protection
lapses — `lastEditTime` is reset to 0 and the unsaved icon is cleared — and
an immediate status refresh is issued; provided no INPUT or SELECT element
has focus and the fetched status carries a nonempty seconds colour, a
timezone offset, a blink mode and a rotation flag, that refresh overwrites
every settings field with the fetched values (the result is independent of
the previous field values). -/
theorem c2_save_clears_protection_and_resyncs :
    ∀ (now : ℤ) (data : StatusData) (p : Page),
      UNSAVED_TIMEOUT < now →
      (∃ c, data.seconds_color = some c ∧ c ≠ "") →
      (∃ z, data.timezone_offset = some z) →
      (∃ b, data.blink_mode = some b) →
      (∃ r, data.rotation = some r) →
      (saveSettings now false data p).2.lastEditTime = 0 ∧
      (saveSettings now false data p).2.unsaved_icon_visible = false ∧
      (saveSettings now false data p).2.fields = updateFields data p.fields ∧
      (∀ g : Fields, updateFields data g = updateFields data p.fields) := by
  intro now data p hnow hsc htz hbm hrot
  obtain ⟨c, hc, hc0⟩ := hsc
  obtain ⟨z, hz⟩ := htz
  obtain ⟨b, hb⟩ := hbm
  obtain ⟨r, hr⟩ := hrot
  refine ⟨?_, ?_, ?_, ?_⟩
  · exact def_fetch_lastEditTime now false data _
  · exact def_fetch_icon_false now false data _ rfl
  · exact def_fetch_fields_overwrite now data _ (by simpa using hnow)
  · intro g
    exact updateFields_indep data c hc hc0 z hz b hb r hr g p.fields

/-- Witness for C2 (amended) at a concrete post-save refresh. -/
theorem c2_save_clears_protection_and_resyncs_witness :
    (saveSettings 40000 false sampleStatus samplePage).2.lastEditTime = 0 ∧
    (saveSettings 40000 false sampleStatus samplePage).2.fields =
      updateFields sampleStatus samplePage.fields :=
  ⟨(c2_save_clears_protection_and_resyncs 40000 sampleStatus samplePage
      (by decide) ⟨"#0000ff", rfl, by decide⟩ ⟨2, rfl⟩ ⟨1, rfl⟩
      ⟨true, rfl⟩).1,
   (c2_save_clears_protection_and_resyncs 40000 sampleStatus samplePage
      (by decide) ⟨"#0000ff", rfl, by decide⟩ ⟨2, rfl⟩ ⟨1, rfl⟩
      ⟨true, rfl⟩).2.2.1⟩

/-- Claim C8: while the focused element is an INPUT or SELECT, a status
refresh leaves every settings input unchanged — for every `now`, so in
particular after the 30-second edit window has lapsed — while the clock
preview and the date line are updated on every refresh and the persistent
log panel on every refresh whose status carries a `logs` field. -/
theorem c8_focus_guard_and_always_updated :
    ∀ (now : ℤ) (data : StatusData) (p : Page),
      (def_fetch now true data p).fields = p.fields ∧
      (def_fetch now true data p).clock_preview = clockText data.time ∧
      (def_fetch now true data p).date_preview = dateText data.date ∧
      (∀ ls, data.logs = some ls →
        (def_fetch now true data p).status_log = logsText ls) := by
  intro now data p
  refine ⟨def_fetch_fields_of_active now data p,
    def_fetch_clock now true data p, def_fetch_date now true data p, ?_⟩
  intro ls h
  exact def_fetch_log now true data p ls h

/-- Witness for C8 at a refresh long after the last edit, with focus held
by an input element. -/
theorem c8_focus_guard_and_always_updated_witness :
    (def_fetch 1000000 true sampleStatus samplePage).fields =
      samplePage.fields ∧
    (def_fetch 1000000 true sampleStatus samplePage).status_log =
      logsText ["boot"] :=
  ⟨(c8_focus_guard_and_always_updated 1000000 sampleStatus samplePage).1,
   (c8_focus_guard_and_always_updated 1000000 sampleStatus
      samplePage).2.2.2 ["boot"] rfl⟩

/-- Claim C9: an `input` or `change` event on any element that is an INPUT
or SELECT — whichever input it is, settings-related or not — runs
`markDirty`, which stamps `lastEditTime` with the current time and shows
the unsaved icon; consequently every status refresh within the next
`UNSAVED_TIMEOUT` milliseconds leaves all settings fields unchanged. -/
theorem c9_any_input_event_starts_window :
    ∀ (tag : ElemTag) (ev : UiEvent) (now : ℤ) (p : Page),
      registersMarkDirty tag = true →
      (ev = UiEvent.eInput ∨ ev = UiEvent.eChange) →
      (dispatchUiEvent tag ev now p).lastEditTime = now ∧
      (dispatchUiEvent tag ev now p).unsaved_icon_visible = true ∧
      (∀ (nowR : ℤ) (act : Bool) (data : StatusData),
        nowR - now ≤ UNSAVED_TIMEOUT →
        (def_fetch nowR act data (dispatchUiEvent tag ev now p)).fields =
          (dispatchUiEvent tag ev now p).fields) := by
  intro tag ev now p h1 h2
  have hd : dispatchUiEvent tag ev now p = markDirty now p := by
    unfold dispatchUiEvent
    rw [if_pos ⟨h1, h2⟩]
  rw [hd]
  refine ⟨rfl, rfl, ?_⟩
  intro nowR act data h
  exact def_fetch_fields_of_le nowR act data (markDirty now p) h

/-- Witness for C9: a `change` event on an INPUT element at time 5000. -/
theorem c9_any_input_event_starts_window_witness :
    (dispatchUiEvent ElemTag.INPUT UiEvent.eChange 5000
      samplePage).lastEditTime = 5000 :=
  (c9_any_input_event_starts_window ElemTag.INPUT UiEvent.eChange 5000
    samplePage rfl (Or.inr rfl)).1

/-- Claim C3 counterexample: with the brightness slider at 50, the value
placed on the `POST /api/settings` wire is 50/100 = 1/2, not the integer
slider value 50 — the client divides by 100 before sending. -/
theorem c3_brightness_counterexample :
    (settingsPayload sampleFieldsHalf).brightness ≠
      (sampleFieldsHalf.brightness : ℚ) := by
  show ((50 : ℤ) : ℚ) / 100 ≠ ((50 : ℤ) : ℚ)
  norm_num

/-- Claim C3 (amended): for every save performed by `saveSettings`, the
brightness value placed on the wire equals the integer slider value divided
by 100 — for slider values in 0–100 this is a fraction in the closed unit
interval, the form the receiver stores directly. -/
theorem c3_brightness_wire_fraction :
    ∀ f : Fields,
      (settingsPayload f).brightness = (f.brightness : ℚ) / 100 ∧
      (0 ≤ f.brightness → f.brightness ≤ 100 →
        0 ≤ (settingsPayload f).brightness ∧
          (settingsPayload f).brightness ≤ 1) := by
  intro f
  refine ⟨rfl, ?_⟩
  intro h0 h100
  constructor
  · show (0 : ℚ) ≤ (f.brightness : ℚ) / 100
    apply div_nonneg _ (by norm_num)
    exact_mod_cast h0
  · show (f.brightness : ℚ) / 100 ≤ 1
    rw [div_le_one (by norm_num)]
    exact_mod_cast h100

/-- Witness for C3 (amended) with the slider at 50. -/
theorem c3_brightness_wire_fraction_witness :
    0 ≤ (settingsPayload sampleFieldsHalf).brightness ∧
      (settingsPayload sampleFieldsHalf).brightness ≤ 1 :=
  (c3_brightness_wire_fraction sampleFieldsHalf).2 (by decide) (by decide)

set_option maxRecDepth 4000 in
/-- Claim C4 counterexample: `saveAlarm` does not ignore the action text
for non-Scroll actions — with the action type set to `blink`, a 251-char
text still blocks the save (no request is produced), while the same form
with a short text produces one; the text also reaches the payload of the
`blink` alarm that is sent. -/
theorem c4_text_counterexample :
    blinkForm.actionType ≠ "scroll" ∧
    (saveAlarm blinkForm).isSome = true ∧
    saveAlarm { blinkForm with actionText := longText } = none ∧
    (buildAlarm blinkForm).action.payload.text = "HI" := by
  refine ⟨by decide, ?_, ?_, rfl⟩
  · rfl
  · have h : 250 < ({ blinkForm with actionText := longText} :
        AlarmForm).actionText.length := by decide
    unfold saveAlarm
    rw [if_pos h]

/-- Claim C4 (amended): for every save through `saveAlarm`, an action text
longer than 250 characters causes the save to be rejected before any
network request is issued — regardless of the action type — leaving the
stored alarm list unchanged under any server behaviour; a text of at most
250 characters is accepted (no non-emptiness check) and is embedded in the
submitted payload for every action type. -/
theorem c4_text_cap_all_actions :
    ∀ form : AlarmForm,
      (250 < form.actionText.length →
        saveAlarm form = none ∧
        ∀ (applyReq : Cmd × Alarm → List Alarm → List Alarm)
          (store : List Alarm),
          storeAfterSaveAlarm form applyReq store = store) ∧
      (form.actionText.length ≤ 250 →
        ∃ cmd a, saveAlarm form = some (cmd, a) ∧
          a.action.payload.text = form.actionText) := by
  intro form
  constructor
  · intro h
    have hn : saveAlarm form = none := by
      unfold saveAlarm
      rw [if_pos h]
    refine ⟨hn, ?_⟩
    intro applyReq store
    unfold storeAfterSaveAlarm
    rw [hn]
  · intro h
    unfold saveAlarm
    rw [if_neg (by omega)]
    cases hid : form.currentAlarmId with
    | some i =>
        exact ⟨Cmd.update, { buildAlarm form with id := some i }, rfl, rfl⟩
    | none => exact ⟨Cmd.add, buildAlarm form, rfl, rfl⟩

set_option maxRecDepth 4000 in
/-- Witness for C4 (amended): the 251-character blink form is rejected. -/
theorem c4_text_cap_all_actions_witness :
    saveAlarm { blinkForm with actionText := longText } = none :=
  ((c4_text_cap_all_actions { blinkForm with actionText := longText }).1
    (by decide)).1

/-- Claim C10: `playAnim` attaches a `text` field to the animation payload
exactly when the requested name is `scroll_custom`, and then substitutes
the default `"Hello World"` exactly when the scroll-text input is empty. -/
theorem c10_scroll_custom_text :
    ∀ (name t : String),
      ((playAnim name t).text.isSome = true ↔ name = "scroll_custom") ∧
      (playAnim name t).name = name ∧
      (name = "scroll_custom" → t = "" →
        (playAnim name t).text = some "Hello World") ∧
      (name = "scroll_custom" → t ≠ "" →
        (playAnim name t).text = some t) := by
  intro name t
  by_cases h : name = "scroll_custom"
  · by_cases ht : t = ""
    · simp [playAnim, h, ht]
    · simp [playAnim, h, ht]
  · simp [playAnim, h]

/-- Witness for C10: the empty scroll-text input yields the default. -/
theorem c10_scroll_custom_text_witness :
    (playAnim "scroll_custom" "").text = some "Hello World" :=
  (c10_scroll_custom_text "scroll_custom" "").2.2.1 rfl rfl

/-! Helper lemmas for the alarm claims. -/

theorem saveAlarm_some_parts {form : AlarmForm} {cmd : Cmd} {a : Alarm}
    (h : saveAlarm form = some (cmd, a)) :
    a.schedule = (buildAlarm form).schedule ∧
      a.type = (buildAlarm form).type ∧
      a.action = (buildAlarm form).action := by
  unfold saveAlarm at h
  split at h
  · simp at h
  · cases hid : form.currentAlarmId
    all_goals rw [hid] at h
    all_goals simp only [Option.some.injEq, Prod.mk.injEq] at h
    · obtain ⟨h1, h2⟩ := h
      rw [← h2]
      exact ⟨rfl, rfl, rfl⟩
    · obtain ⟨h1, h2⟩ := h
      rw [← h2]
      exact ⟨rfl, rfl, rfl⟩

theorem buildAlarm_schedule_props (form : AlarmForm) :
    ((buildAlarm form).schedule.date.isSome = true ↔
      (buildAlarm form).type = "oneshot") ∧
    ((buildAlarm form).schedule.days.isSome = true ↔
      (buildAlarm form).schedule.frequency = some "daily") ∧
    ((buildAlarm form).schedule.frequency.isSome = true ↔
      (buildAlarm form).type = "repetitive") ∧
    (form.freq = "hourly" →
      (buildAlarm form).schedule.days = none ∧
        (buildAlarm form).schedule.date = none ∧
        (buildAlarm form).schedule.frequency = some "hourly") := by
  by_cases h1 : form.freq = "oneshot"
  · have h2 : ¬ form.freq = "daily" := by rw [h1]; decide
    have h3 : ¬ form.freq = "hourly" := by rw [h1]; decide
    simp [buildAlarm, h1, h2, h3]
  · by_cases h2 : form.freq = "daily"
    · have h3 : ¬ form.freq = "hourly" := by rw [h2]; decide
      simp [buildAlarm, h1, h2, h3]
    · by_cases h3 : form.freq = "hourly"
      · simp [buildAlarm, h1, h2, h3]
      · simp [buildAlarm, h1, h2, h3]

theorem full_days_length (d : List ℕ) (hnd : d.Nodup)
    (hlt : ∀ x ∈ d, x < 7) (hfull : ∀ w, w < 7 → w ∈ d) : d.length = 7 := by
  have h1 : d.toFinset = Finset.range 7 := by
    ext x
    simp only [List.mem_toFinset, Finset.mem_range]
    exact ⟨fun hx => hlt x hx, fun hx => hfull x hx⟩
  have h2 := List.toFinset_card_of_nodup hnd
  rw [h1, Finset.card_range] at h2
  omega

theorem full_days_of_length (d : List ℕ) (hnd : d.Nodup)
    (hlt : ∀ x ∈ d, x < 7) (hlen : d.length = 7) :
    ∀ w, w < 7 → w ∈ d := by
  have hsub : d.toFinset ⊆ Finset.range 7 := by
    intro x hx
    exact Finset.mem_range.2 (hlt x (List.mem_toFinset.1 hx))
  have hcard : (Finset.range 7).card ≤ d.toFinset.card := by
    rw [List.toFinset_card_of_nodup hnd, hlen, Finset.card_range]
  have heq := Finset.eq_of_subset_of_card_le hsub hcard
  intro w hw
  have : w ∈ d.toFinset := by
    rw [heq]
    exact Finset.mem_range.2 hw
  exact List.mem_toFinset.1 this

theorem dayLetters_weekday :
    ∀ i, i < 7 → dayLetters.getD i "" = (weekdayNames.getD i "").take 1 := by
  decide

/-- Claim C5: for every alarm constructed and submitted by `saveAlarm` the
schedule is complete with respect to its kind: it contains `date` iff the
alarm is a one-shot, contains `days` iff the frequency is `daily`, and
carries a `frequency` field iff the alarm is repetitive; an hourly
frequency yields a schedule with neither `days` nor `date`. -/
theorem c5_schedule_completeness :
    ∀ (form : AlarmForm) (cmd : Cmd) (a : Alarm),
      saveAlarm form = some (cmd, a) →
      (a.schedule.date.isSome = true ↔ a.type = "oneshot") ∧
      (a.schedule.days.isSome = true ↔
        a.schedule.frequency = some "daily") ∧
      (a.schedule.frequency.isSome = true ↔ a.type = "repetitive") ∧
      (form.freq = "hourly" →
        a.schedule.days = none ∧ a.schedule.date = none ∧
          a.schedule.frequency = some "hourly") := by
  intro form cmd a h
  obtain ⟨hs, ht, _⟩ := saveAlarm_some_parts h
  rw [hs, ht]
  exact buildAlarm_schedule_props form

/-- Witness for C5 at the concrete daily blink form. -/
theorem c5_schedule_completeness_witness :
    ((buildAlarm blinkForm).schedule.days.isSome = true ↔
      (buildAlarm blinkForm).schedule.frequency = some "daily") :=
  (c5_schedule_completeness blinkForm Cmd.add (buildAlarm blinkForm)
    rfl).2.1

/-- Claim C6: every alarm-management request posts `{cmd, alarm?, id?}`
with `id` present exactly when the command is `update` or `delete` and
`alarm` present exactly when it is `add` or `update` (given the caller
supplies an id, as `saveAlarm` and `deleteAlarm` do); an error response —
non-ok HTTP status or `status = "error"` — produces a non-empty list of
alert messages and an `Except.error` delivered to the caller, never a
silent success, while an ok response produces no alert and `Except.ok`. -/
theorem c6_alarm_request_shape_and_errors :
    ∀ (cmd : Cmd) (a : Alarm) (r : ApiResponse),
      a.id.isSome = true →
      ((saveAlarmRequest cmd a).id.isSome = true ↔
        (cmd = Cmd.update ∨ cmd = Cmd.delete)) ∧
      ((saveAlarmRequest cmd a).alarm.isSome = true ↔
        (cmd = Cmd.add ∨ cmd = Cmd.update)) ∧
      (saveAlarmRequest cmd a).cmd = cmd ∧
      ((r.ok = false ∨ r.status = "error") →
        (saveAlarmRequestOutcome r).2 = Except.error (r.message.getD "") ∧
          (saveAlarmRequestOutcome r).1 ≠ []) ∧
      (r.ok = true → r.status ≠ "error" →
        saveAlarmRequestOutcome r = ([], Except.ok ())) := by
  intro cmd a r ha
  refine ⟨?_, ?_, ?_, ?_, ?_⟩
  · cases cmd <;> simp [saveAlarmRequest, ha]
  · cases cmd <;> simp [saveAlarmRequest]
  · cases cmd <;> rfl
  · intro h
    unfold saveAlarmRequestOutcome
    rw [if_pos h]
    by_cases hm : r.message.getD "" = ""
    · rw [if_pos hm]
      exact ⟨rfl, by simp⟩
    · rw [if_neg hm]
      exact ⟨rfl, by simp⟩
  · intro h1 h2
    unfold saveAlarmRequestOutcome
    rw [if_neg (by simp [h1, h2])]

/-- Witness for C6: an `update` of the sample alarm, and a failing
response carrying no message. -/
theorem c6_alarm_request_shape_and_errors_witness :
    (saveAlarmRequestOutcome ⟨false, "error", none⟩).1 ≠ [] :=
  ((c6_alarm_request_shape_and_errors Cmd.update sampleDailyAlarm
    ⟨false, "error", none⟩ rfl).2.2.2.1 (Or.inl rfl)).2

/-- Claim C7: for a repetitive daily alarm, `renderAlarms` displays a day
set that is empty — or that contains all 7 weekdays — as `Every day`
(empty never means "never"), and any other day set as the space-separated
first letters of the weekday names in the Monday-first encoding
(0 = Monday .. 6 = Sunday). -/
theorem c7_daily_days_rendering :
    ∀ (a : Alarm) (d : List ℕ),
      a.type = "repetitive" → a.schedule.frequency = some "daily" →
      a.schedule.days = some d → d.Nodup → (∀ x ∈ d, x < 7) →
      ((d = [] ∨ ∀ w, w < 7 → w ∈ d) →
        alarmInfo a =
          ("<strong>" ++ a.schedule.time ++ "</strong>") ++
            " (Every day)") ∧
      ((d ≠ [] ∧ ¬ ∀ w, w < 7 → w ∈ d) →
        alarmInfo a =
          ("<strong>" ++ a.schedule.time ++ "</strong>") ++ " (" ++
            String.intercalate " "
              (d.map (fun i => (weekdayNames.getD i "").take 1)) ++ ")") := by
  intro a d ht hf hd hnd hlt
  constructor
  · intro hcase
    have hlen : d.length = 0 ∨ d.length = 7 := by
      rcases hcase with hnil | hfull
      · left
        simp [hnil]
      · right
        exact full_days_length d hnd hlt hfull
    unfold alarmInfo
    simp only [ht, hf, hd, Option.getD_some, if_true]
    rw [if_pos hlen]
  · intro hcase
    obtain ⟨hne, hnfull⟩ := hcase
    have h0 : d.length ≠ 0 := fun hc => hne (List.length_eq_zero.1 hc)
    have h7 : d.length ≠ 7 :=
      fun hc => hnfull (full_days_of_length d hnd hlt hc)
    have hmap : d.map (fun i => dayLetters.getD i "") =
        d.map (fun i => (weekdayNames.getD i "").take 1) :=
      List.map_congr_left (fun i hi => dayLetters_weekday i (hlt i hi))
    unfold alarmInfo
    simp only [ht, hf, hd, Option.getD_some, if_true]
    rw [if_neg (not_or.2 ⟨h0, h7⟩), hmap]

/-- Witness for C7: a Monday-and-Wednesday alarm renders as `M W`. -/
theorem c7_daily_days_rendering_witness :
    alarmInfo sampleDailyAlarm = "<strong>07:00</strong> (M W)" := by
  have h := (c7_daily_days_rendering sampleDailyAlarm [0, 2] rfl rfl rfl
    (by decide) (by decide)).2 ⟨by decide, by decide⟩
  rw [h]
  rfl

end PixelClock
